import Mathlib

/-!
Verification development for the streamAI recording frontend.

The definitions below are shallow embeddings of the TypeScript services
`frontend/src/services/videoProcessingAPI.ts`,
`frontend/src/services/integratedRecordingService.ts` and the
`IntegratedRecording` UI component.  Asynchronous network calls are modelled
by passing the outcome of each fetch explicitly; the recursive
`setTimeout`-driven polling loops are modelled as folds over the list of
successive responses that the remote endpoint produces.
-/

namespace StreamAI

/-- JavaScript `a || b` on an optional string: `undefined`, `null` and the
empty string are falsy, anything else wins. -/
def jsOrStr (a : Option String) (b : String) : String :=
  match a with
  | some s => if s = "" then b else s
  | none => b

/-- JavaScript `a || b` on an optional number: `undefined`, `null` and `0`
are falsy. -/
def jsOrNat (a : Option Nat) (b : Nat) : Nat :=
  match a with
  | some n => if n = 0 then b else n
  | none => b

/-- The `status` field of the `TaskStatus` interface in
`videoProcessingAPI.ts` (lines 15-27): one of
`uploaded | processing | completed | completed_simple | error`. -/
inductive TaskStatusKind where
  | uploaded
  | processing
  | completed
  | completedSimple
  | error
deriving DecidableEq, Repr

/-- The `config` object carried by upload responses and processing states
(`subtitle_model`, `priority`). -/
structure ProcConfig where
  subtitle_model : String
  priority : Nat
deriving DecidableEq, Repr

/-- The `TaskStatus` interface of `videoProcessingAPI.ts` (lines 15-27).
All fields except `task_id` and `status` are optional. -/
structure TaskStatus where
  task_id : String
  status : TaskStatusKind
  progress : Option Nat := none
  message : Option String := none
  result : Option String := none
  filename : Option String := none
  config : Option ProcConfig := none
deriving DecidableEq, Repr

/-- The `UploadOptions` interface of `videoProcessingAPI.ts`
(`subtitle_model?`, `priority?`). -/
structure UploadOptions where
  subtitle_model : Option String := none
  priority : Option Nat := none
deriving DecidableEq, Repr

/-- Outcome of one `await this.getTaskStatus(taskId)` call inside the
polling loop of `pollTaskProgress`: either the promise resolved with a
`TaskStatus`, or the underlying fetch threw (network error / rejection). -/
inductive PollResp where
  | ok (s : TaskStatus)
  | threw (msg : String)
deriving DecidableEq, Repr

/-- Observable effects of `VideoProcessingAPI.pollTaskProgress`
(lines 159-198): callback invocations and `setTimeout` re-scheduling. -/
inductive PollEvent where
  | onProgress (s : TaskStatus)
  | onComplete (s : TaskStatus)
  | onError (msg : String)
  | scheduled (delayMs : Nat)
deriving DecidableEq, Repr

/-- How a polling run ended (or did not): `running` means the trace was
exhausted with the loop still scheduled. -/
inductive PollOutcome where
  | running
  | completed
  | failed
deriving DecidableEq, Repr

/-- Result of a `pollTaskProgress` run over a finite response trace: the
events emitted, the number of `getTaskStatus` attempts consumed, and how the
run ended. -/
structure PollRunResult where
  events : List PollEvent
  attempts : Nat
  outcome : PollOutcome
deriving DecidableEq, Repr

/-- Shallow embedding of `VideoProcessingAPI.pollTaskProgress`
(`videoProcessingAPI.ts` lines 159-198), run over the list of successive
responses.  Mirrors the source exactly: `onProgress` fires on every resolved
poll; `completed`/`completed_simple` stop the loop and fire `onComplete`;
an `error` status stops the loop and fires `onError` with
`status.message || "Erreur de traitement"`; any other status re-schedules
via `setTimeout(poll, intervalMs)`; a thrown fetch sets `isPolling = false`
and fires `onError` — it does not re-schedule. -/
def pollTaskProgress (intervalMs : Nat) : List PollResp → PollRunResult
  | [] => ⟨[], 0, .running⟩
  | .threw msg :: _ => ⟨[.onError msg], 1, .failed⟩
  | .ok s :: rest =>
    match s.status with
    | .completed => ⟨[.onProgress s, .onComplete s], 1, .completed⟩
    | .completedSimple => ⟨[.onProgress s, .onComplete s], 1, .completed⟩
    | .error =>
        ⟨[.onProgress s, .onError (jsOrStr s.message "Erreur de traitement")], 1, .failed⟩
    | .uploaded =>
        let r := pollTaskProgress intervalMs rest
        ⟨.onProgress s :: .scheduled intervalMs :: r.events, r.attempts + 1, r.outcome⟩
    | .processing =>
        let r := pollTaskProgress intervalMs rest
        ⟨.onProgress s :: .scheduled intervalMs :: r.events, r.attempts + 1, r.outcome⟩

/-- The `obsStatus` sub-object of the `RecordingStatus` interface in
`integratedRecordingService.ts` (lines 26-31). -/
structure ObsStatus where
  active : Bool
  paused : Bool
  timecode : String
  bytes : Nat
deriving DecidableEq, Repr

/-- The `RecordingStatus` interface of `integratedRecordingService.ts`
(lines 21-34). -/
structure RecordingStatus where
  active : Bool
  sessionName : Option String := none
  startTime : Option String := none
  autoUpload : Option Bool := none
  obsStatus : Option ObsStatus := none
  sessionPath : Option String := none
  message : Option String := none
deriving DecidableEq, Repr

/-- Outcome of one `await this.getRecordingStatus()` call inside
`pollRecordingStatus`. -/
inductive RecPollResp where
  | ok (s : RecordingStatus)
  | threw (msg : String)
deriving DecidableEq, Repr

/-- Observable effects of `IntegratedRecordingService.pollRecordingStatus`
(lines 320-352). -/
inductive RecEvent where
  | onUpdate (s : RecordingStatus)
  | onErrorCb (msg : String)
  | scheduled (delayMs : Nat)
deriving DecidableEq, Repr

/-- Shallow embedding of `IntegratedRecordingService.pollRecordingStatus`
(`integratedRecordingService.ts` lines 320-352), run over the list of
successive responses.  A resolved poll fires `onUpdate` and re-schedules at
`intervalMs`; a thrown poll fires `onError` and still re-schedules, at the
longer interval `intervalMs * 2` — errors never terminate this loop. -/
def pollRecordingStatus (intervalMs : Nat) : List RecPollResp → List RecEvent
  | [] => []
  | .ok s :: rest =>
      .onUpdate s :: .scheduled intervalMs :: pollRecordingStatus intervalMs rest
  | .threw msg :: rest =>
      .onErrorCb msg :: .scheduled (intervalMs * 2) :: pollRecordingStatus intervalMs rest

/-- A concrete mid-flight processing status used in concrete runs. -/
def processingStatus : TaskStatus :=
  { task_id := "t1", status := .processing, progress := some 40,
    message := some "Transcription en cours..." }

/-- A concrete successfully-completed status used in concrete runs. -/
def completedStatus : TaskStatus :=
  { task_id := "t1", status := .completed, progress := some 100,
    message := some "Traitement terminé" }

/-- A run of `pollRecordingStatus` over `n` consecutive thrown polls emits
exactly `2 * n` events: the loop never terminates on errors. -/
theorem length_pollRecordingStatus_replicate (i : Nat) (msg : String) (n : Nat) :
    (pollRecordingStatus i (List.replicate n (RecPollResp.threw msg))).length = 2 * n := by
  induction n with
  | zero => rfl
  | succ k ih =>
      simp only [List.replicate, pollRecordingStatus, List.length_cons, ih]
      omega

/-- C2.  The claim says a poll attempt whose fetch throws does not terminate
the upload as failed and polling continues; on the code it is the opposite:
in `pollTaskProgress` the `catch` sets `isPolling = false` and invokes
`onError`, ending the run in failure with no further poll.  Concretely, a
run whose first poll throws ends immediately in failure and never observes
the later `processing` response. -/
theorem c2_counterexample :
    pollTaskProgress 5000 [PollResp.threw "NetworkError", PollResp.ok processingStatus]
      = ⟨[PollEvent.onError "NetworkError"], 1, PollOutcome.failed⟩ := by
  decide

/-- C2 (amended).  In `pollTaskProgress` a thrown poll immediately ends the
run in failure: `onError` fires and no further poll is scheduled, whatever
responses would have followed.  Only `pollRecordingStatus` treats a thrown
poll as non-fatal: it fires its error callback and keeps polling, at the
doubled interval `intervalMs * 2`. -/
theorem c2_thrown_poll_fails_task_run (i : Nat) (msg : String)
    (rest : List PollResp) (rrest : List RecPollResp) :
    pollTaskProgress i (PollResp.threw msg :: rest)
      = ⟨[PollEvent.onError msg], 1, PollOutcome.failed⟩
  ∧ pollRecordingStatus i (RecPollResp.threw msg :: rrest)
      = RecEvent.onErrorCb msg :: RecEvent.scheduled (i * 2)
          :: pollRecordingStatus i rrest := by
  exact ⟨rfl, rfl⟩

/-- C3.  The claim says an upload whose remote always fails transiently
reaches `Failed` after exactly the configured maximum number of attempts
with exponential backoff; the code has no retry policy at all.  Over a
remote that throws on every one of five polls, `pollTaskProgress` fails
after exactly one attempt (no retry is ever scheduled, so no backoff
occurs), while `pollRecordingStatus` never reaches a failed outcome — it
emits two events per response and keeps going. -/
theorem c3_counterexample :
    pollTaskProgress 5000 (List.replicate 5 (PollResp.threw "NetworkError"))
      = ⟨[PollEvent.onError "NetworkError"], 1, PollOutcome.failed⟩
  ∧ (pollRecordingStatus 2000 (List.replicate 5 (RecPollResp.threw "NetworkError"))).length
      = 10 := by
  decide

/-- C3 (amended).  There is no bounded-retry/backoff policy in the code: for
every `n ≥ 1`, a `pollTaskProgress` run over `n` always-throwing polls ends
in failure after exactly one attempt with no rescheduling, and a
`pollRecordingStatus` run over the same trace never terminates — it emits
`2 * n` events, each either the error callback or a rescheduling at the
fixed doubled interval `intervalMs * 2`. -/
theorem c3_no_retry_policy (i : Nat) (msg : String) (n : Nat) (h : 1 ≤ n) :
    pollTaskProgress i (List.replicate n (PollResp.threw msg))
      = ⟨[PollEvent.onError msg], 1, PollOutcome.failed⟩
  ∧ (pollRecordingStatus i (List.replicate n (RecPollResp.threw msg))).length = 2 * n
  ∧ ∀ ev ∈ pollRecordingStatus i (List.replicate n (RecPollResp.threw msg)),
      ev = RecEvent.onErrorCb msg ∨ ev = RecEvent.scheduled (i * 2) := by
  refine ⟨?_, length_pollRecordingStatus_replicate i msg n, ?_⟩
  · cases n with
    | zero => omega
    | succ m => rfl
  · clear h
    induction n with
    | zero => intro ev hev; simp [pollRecordingStatus] at hev
    | succ k ih =>
        intro ev hev
        simp only [List.replicate, pollRecordingStatus, List.mem_cons] at hev
        rcases hev with rfl | rfl | hev
        · exact Or.inl rfl
        · exact Or.inr rfl
        · exact ih ev hev

/-- C3 witness: the amended theorem applied at a concrete always-failing
trace of three polls. -/
theorem c3_witness :
    1 ≤ 3
  ∧ pollTaskProgress 2000 (List.replicate 3 (PollResp.threw "NetworkError"))
      = ⟨[PollEvent.onError "NetworkError"], 1, PollOutcome.failed⟩ :=
  ⟨by decide, (c3_no_retry_policy 2000 "NetworkError" 3 (by decide)).1⟩

/-- C6.  Completed and Failed are terminal for a polling run: once a
`pollTaskProgress` run has ended (its outcome is no longer `running` —
`onComplete` fired on a `completed`/`completed_simple` status, or `onError`
fired on an `error` status or a thrown poll), appending any further
responses to the trace changes nothing: no further poll happens, no further
event or callback is produced. -/
theorem c6_terminal_stops_polling (i : Nat) (xs ys : List PollResp)
    (h : (pollTaskProgress i xs).outcome ≠ PollOutcome.running) :
    pollTaskProgress i (xs ++ ys) = pollTaskProgress i xs := by
  induction xs with
  | nil => exact absurd rfl h
  | cons x rest ih =>
      cases x with
      | threw m => rfl
      | ok s =>
          cases hs : s.status <;>
            simp only [pollTaskProgress, hs, List.cons_append] at h ⊢
          case uploaded =>
            rw [List.append_eq, ih h]
          case processing =>
            rw [List.append_eq, ih h]

/-- C6 witness: a run that observed a `completed` status is unaffected by a
further `processing` response. -/
theorem c6_witness :
    (pollTaskProgress 5000 [PollResp.ok completedStatus]).outcome ≠ PollOutcome.running
  ∧ pollTaskProgress 5000 ([PollResp.ok completedStatus] ++ [PollResp.ok processingStatus])
      = pollTaskProgress 5000 [PollResp.ok completedStatus] :=
  ⟨by decide,
   c6_terminal_stops_polling 5000 [PollResp.ok completedStatus]
     [PollResp.ok processingStatus] (by decide)⟩

/-- Outcome of a `fetch` call as seen by the service methods: the fetch
threw (network failure), the response was ok and its JSON body parsed to
`α`, or the response was not ok with the given HTTP status, status text and
optional error field extracted from the JSON error body (`none` models a
body whose parsing failed, i.e. the `catch(() => ({}))` fallback). -/
inductive FetchOutcome (α : Type) where
  | threw (msg : String)
  | respOk (body : α)
  | respErr (code : Nat) (statusText : String) (errField : Option String)
deriving DecidableEq, Repr

/-- The `StartRecordingOptions` interface of `integratedRecordingService.ts`
(lines 36-39): both fields optional. -/
structure StartRecordingOptions where
  sessionName : Option String := none
  autoUpload : Option Bool := none
deriving DecidableEq, Repr

/-- The JSON body that `IntegratedRecordingService.startRecording` sends to
`/api/integrated/recording/start`. -/
structure StartRequestBody where
  sessionName : Option String
  autoUpload : Bool
deriving DecidableEq, Repr

/-- Body construction in `IntegratedRecordingService.startRecording`
(lines 160-163): `sessionName: options.sessionName,
autoUpload: options.autoUpload ?? true` — nullish coalescing, so only a
missing `autoUpload` falls back to `true`; an explicit `false` is kept. -/
def startRequestBody (o : StartRecordingOptions) : StartRequestBody :=
  ⟨o.sessionName, o.autoUpload.getD true⟩

/-- Shallow embedding of `IntegratedRecordingService.startRecording`
(lines 153-178): the request body it sends, paired with what the caller
gets.  A non-ok response makes it throw
`new Error(errorData.error || "HTTP status: statusText")`; a thrown fetch
is logged and rethrown.  `Except.error` models an exception propagating to
the caller; `Except.ok` models a returned result. -/
def startRecording (o : StartRecordingOptions) {α : Type} (f : FetchOutcome α) :
    StartRequestBody × Except String α :=
  (startRequestBody o,
    match f with
    | .threw msg => .error msg
    | .respOk body => .ok body
    | .respErr code txt errField =>
        .error (jsOrStr errField ("HTTP " ++ toString code ++ ": " ++ txt)))

/-- Shallow embedding of `IntegratedRecordingService.stopRecording`
(lines 183-204): same throw-on-failure shape as `startRecording`. -/
def stopRecording {α : Type} (f : FetchOutcome α) : Except String α :=
  match f with
  | .threw msg => .error msg
  | .respOk body => .ok body
  | .respErr code txt errField =>
      .error (jsOrStr errField ("HTTP " ++ toString code ++ ": " ++ txt))

/-- Shallow embedding of `IntegratedRecordingService.getRecordingStatus`
(lines 209-220): a non-ok response throws `HTTP status: statusText`
directly (the error body is not consulted); a thrown fetch is rethrown. -/
def getRecordingStatus (f : FetchOutcome RecordingStatus) :
    Except String RecordingStatus :=
  match f with
  | .threw msg => .error msg
  | .respOk body => .ok body
  | .respErr code txt _ => .error ("HTTP " ++ toString code ++ ": " ++ txt)

/-- The `UploadOptions` interface of `integratedRecordingService.ts`
(lines 41-45), used by `manualUpload`. -/
structure ManualUploadOptions where
  sessionName : String
  subtitleModel : Option String := none
  priority : Option Nat := none
deriving DecidableEq, Repr

/-- The JSON body that `IntegratedRecordingService.manualUpload` sends. -/
structure ManualUploadBody where
  sessionName : String
  subtitleModel : String
  priority : Nat
deriving DecidableEq, Repr

/-- Body construction in `manualUpload` (lines 264-268):
`subtitleModel: options.subtitleModel || "base"`,
`priority: options.priority || 1` — JavaScript `||`, so falsy values fall
back. -/
def manualUploadBody (o : ManualUploadOptions) : ManualUploadBody :=
  ⟨o.sessionName, jsOrStr o.subtitleModel "base", jsOrNat o.priority 1⟩

/-- Shallow embedding of `IntegratedRecordingService.manualUpload`
(lines 257-283): same throw-on-failure shape as `startRecording`. -/
def manualUpload (o : ManualUploadOptions) {α : Type} (f : FetchOutcome α) :
    ManualUploadBody × Except String α :=
  (manualUploadBody o,
    match f with
    | .threw msg => .error msg
    | .respOk body => .ok body
    | .respErr code txt errField =>
        .error (jsOrStr errField ("HTTP " ++ toString code ++ ": " ++ txt)))

/-- Shallow embedding of `IntegratedRecordingService.testConnection`
(lines 288-296): the one operation that converts failures into a structured
result — it returns `response.ok`, and `false` when the fetch throws. -/
def testConnection (f : FetchOutcome Unit) : Bool :=
  match f with
  | .threw _ => false
  | .respOk _ => true
  | .respErr _ _ _ => false

/-- Character-list test for `taskId.startsWith("local_")` in
`getTaskStatus` (`videoProcessingAPI.ts` line 122); equivalent to the
JavaScript prefix test for this ASCII needle. -/
def isLocalTaskId (taskId : String) : Bool :=
  List.isPrefixOf "local_".data taskId.data

/-- The mock-mode not-found result of `getTaskStatus`
(`videoProcessingAPI.ts` lines 128-132). -/
def localTaskNotFound (taskId : String) : TaskStatus :=
  { task_id := taskId, status := .error,
    message := some "Tâche locale non trouvée" }

/-- C1.  The claim says a start request issued while a session is already
recording fails with an AlreadyRecording error returned to the caller, with
the UI guard realizing the rejection as an error result rather than a
silent no-op.  On the code the guard IS a silent no-op: with
`isRecording = true` (and not loading), `handleStartRecording` returns
immediately — no request is sent, no error is set, and the state is
returned unchanged.  (Stated after `handleStartRecording` below.) -/
structure UiState where
  isLoading : Bool
  isRecording : Bool
  error : Option String
  uploadProgress : Option String
deriving DecidableEq, Repr

/-- Outcome of `await integratedRecordingService.startRecording(...)` as
seen by the UI handler: the promise rejected (service threw), or it
resolved to a JSON `result` with a `success` flag and optional `message`. -/
inductive StartServiceOutcome where
  | threw (msg : String)
  | resolved (success : Bool) (message : Option String)
deriving DecidableEq, Repr

/-- Shallow embedding of the `handleStartRecording` callback of the
`IntegratedRecording` component (lines 92-118): the guard
`if (isLoading || isRecording) return;` drops the request silently;
otherwise the handler clears `error`/`uploadProgress`, awaits the service,
sets `isRecording` on `result.success`, and on a throw or an unsuccessful
result stores `result.message || "Échec du démarrage"` (or the thrown
message) in `error`; `isLoading` is reset in the `finally`.  The returned
Bool says whether a request was sent to the service at all. -/
def handleStartRecording (s : UiState) (svc : StartServiceOutcome) :
    UiState × Bool :=
  if s.isLoading || s.isRecording then (s, false)
  else
    match svc with
    | .resolved true _ =>
        ({ s with isLoading := false, isRecording := true,
                  error := none, uploadProgress := none }, true)
    | .resolved false msg =>
        ({ s with isLoading := false,
                  error := some (jsOrStr msg "Échec du démarrage"),
                  uploadProgress := none }, true)
    | .threw msg =>
        ({ s with isLoading := false, error := some msg,
                  uploadProgress := none }, true)

/-- C1 counterexample: with a session already recording, the UI start
handler is a silent no-op — state unchanged, no request sent, and in
particular no AlreadyRecording (or any) error is surfaced to the caller. -/
theorem c1_counterexample :
    handleStartRecording ⟨false, true, none, none⟩
        (StartServiceOutcome.resolved true none)
      = (⟨false, true, none, none⟩, false) := by
  decide

/-- C1 (amended).  A start request made while a session is already
recording is dropped silently by the UI guard: `handleStartRecording`
returns with the state unchanged, no request sent and no error set.  An
AlreadyRecording-style rejection reaches the caller only at the service
level, where a server rejection with a non-empty error field makes
`startRecording` throw exactly that message. -/
theorem c1_start_while_recording_silent_noop (s : UiState)
    (svc : StartServiceOutcome) (o : StartRecordingOptions)
    (code : Nat) (txt msg : String)
    (hrec : s.isRecording = true) (hmsg : msg ≠ "") :
    handleStartRecording s svc = (s, false)
  ∧ (startRecording o (FetchOutcome.respErr (α := Unit) code txt (some msg))).2
      = Except.error msg := by
  constructor
  · simp [handleStartRecording, hrec]
  · simp [startRecording, jsOrStr, hmsg]

/-- C1 witness: the amended theorem at a concrete busy state and a concrete
server rejection. -/
theorem c1_witness :
    (⟨false, true, none, none⟩ : UiState).isRecording = true
  ∧ "Enregistrement en cours" ≠ ""
  ∧ handleStartRecording ⟨false, true, none, none⟩
        (StartServiceOutcome.resolved true none)
      = (⟨false, true, none, none⟩, false) :=
  ⟨rfl, by decide,
   (c1_start_while_recording_silent_noop ⟨false, true, none, none⟩
      (StartServiceOutcome.resolved true none) {} 409 "Conflict"
      "Enregistrement en cours" rfl (by decide)).1⟩

/-- C9.  For every `startRecording` call whose options omit `autoUpload`,
the request body sent to the server carries `autoUpload = true` (the
`options.autoUpload ?? true` default): automatic upload is opt-out, and an
explicit `false` is preserved. -/
theorem c9_autoupload_defaults_true (name : Option String) :
    (startRequestBody ⟨name, none⟩).autoUpload = true
  ∧ (startRecording ⟨name, none⟩ (FetchOutcome.respOk ())).1.autoUpload = true
  ∧ (startRequestBody ⟨name, some false⟩).autoUpload = false := by
  exact ⟨rfl, rfl, rfl⟩

/-- JSON values, used to model what `JSON.stringify` writes into
`localStorage` and what `JSON.parse` reads back.  The stringify/parse pair
is modelled at the JSON-value level, where `parse (stringify v) = v` for
JSON-safe values. -/
inductive JsonVal where
  | jstr (s : String)
  | jnum (n : Nat)
  | jobj (fields : List (String × JsonVal))

/-- First-match key lookup in a JSON object, as property access on the
parsed object. -/
def jlookup (k : String) : List (String × JsonVal) → Option JsonVal
  | [] => none
  | (k', v) :: rest => if k' = k then some v else jlookup k rest

/-- The wire text of a `TaskStatus.status` value. -/
def statusText : TaskStatusKind → String
  | .uploaded => "uploaded"
  | .processing => "processing"
  | .completed => "completed"
  | .completedSimple => "completed_simple"
  | .error => "error"

/-- Parse a `TaskStatus.status` wire text back. -/
def statusOfText (s : String) : Option TaskStatusKind :=
  if s = "uploaded" then some .uploaded
  else if s = "processing" then some .processing
  else if s = "completed" then some .completed
  else if s = "completed_simple" then some .completedSimple
  else if s = "error" then some .error
  else none

/-- A JSON object field that is present only when the value is defined
(`JSON.stringify` drops `undefined` fields). -/
def optField (k : String) (v : Option JsonVal) : List (String × JsonVal) :=
  match v with
  | some j => [(k, j)]
  | none => []

/-- JSON encoding of the `config` object. -/
def configToJson (c : ProcConfig) : JsonVal :=
  .jobj [("subtitle_model", .jstr c.subtitle_model), ("priority", .jnum c.priority)]

/-- JSON decoding of the `config` object. -/
def configOfJson : Option JsonVal → Option ProcConfig
  | some (.jobj fs) =>
      match jlookup "subtitle_model" fs, jlookup "priority" fs with
      | some (.jstr sm), some (.jnum pr) => some ⟨sm, pr⟩
      | _, _ => none
  | _ => none

/-- Optional string field decoding. -/
def jstrOf : Option JsonVal → Option String
  | some (.jstr s) => some s
  | _ => none

/-- Optional numeric field decoding. -/
def jnumOf : Option JsonVal → Option Nat
  | some (.jnum n) => some n
  | _ => none

/-- What `JSON.stringify` produces for a processing-state object
(`saveProcessingState`, `videoProcessingAPI.ts` lines 348-352), as a JSON
value: defined fields only. -/
def toJson (s : TaskStatus) : JsonVal :=
  .jobj ([("task_id", .jstr s.task_id), ("status", .jstr (statusText s.status))]
    ++ optField "progress" (s.progress.map .jnum)
    ++ optField "message" (s.message.map .jstr)
    ++ optField "result" (s.result.map .jstr)
    ++ optField "filename" (s.filename.map .jstr)
    ++ optField "config" (s.config.map configToJson))

/-- What `JSON.parse` of a stored processing state yields, read back as a
`TaskStatus` (`getLocalProcessingState`, lines 357-365). -/
def fromJson (j : JsonVal) : Option TaskStatus :=
  match j with
  | .jobj fs =>
      match jlookup "task_id" fs, jlookup "status" fs with
      | some (.jstr tid), some (.jstr st) =>
          match statusOfText st with
          | some k =>
              some { task_id := tid, status := k,
                     progress := jnumOf (jlookup "progress" fs),
                     message := jstrOf (jlookup "message" fs),
                     result := jstrOf (jlookup "result" fs),
                     filename := jstrOf (jlookup "filename" fs),
                     config := configOfJson (jlookup "config" fs) }
          | none => none
      | _, _ => none
  | _ => none

/-- Round trip: parsing a stringified processing state gives back exactly
the original state. -/
theorem fromJson_toJson (s : TaskStatus) : fromJson (toJson s) = some s := by
  obtain ⟨tid, k, p, m, r, fn, c⟩ := s
  cases k <;> cases p <;> cases m <;> cases r <;> cases fn <;>
    cases c <;> rfl

/-- The browser `localStorage`, as key/value pairs where the most recent
`setItem` for a key shadows older entries. -/
def Storage : Type := List (String × JsonVal)

/-- `localStorage.setItem(key, value)`. -/
def setItem (st : Storage) (k : String) (v : JsonVal) : Storage :=
  (k, v) :: st

/-- `localStorage.getItem(key)`: the most recently set value for the key. -/
def getItem (st : Storage) (k : String) : Option JsonVal :=
  jlookup k st

/-- Shallow embedding of `VideoProcessingAPI.saveProcessingState`
(lines 348-352): guarded by `typeof window !== "undefined"`, stores the
stringified state under `processing_` ++ taskId. -/
def saveProcessingState (windowDefined : Bool) (st : Storage)
    (taskId : String) (s : TaskStatus) : Storage :=
  if windowDefined then setItem st ("processing_" ++ taskId) (toJson s) else st

/-- Shallow embedding of `VideoProcessingAPI.getLocalProcessingState`
(lines 357-365): guarded by `typeof window !== "undefined"`, parses the
stored value when present, `null` otherwise. -/
def getLocalProcessingState (windowDefined : Bool) (st : Storage)
    (taskId : String) : Option TaskStatus :=
  if windowDefined then (getItem st ("processing_" ++ taskId)).bind fromJson
  else none

/-- Shallow embedding of `VideoProcessingAPI.getTaskStatus`
(lines 120-154).  In mock mode (`MOCK_MODE && LOCAL_PROCESSING`) a task id
starting with `local_` is served from `localStorage`, with a structured
`error` status when no state was ever saved; otherwise the remote endpoint
is queried and, on a thrown fetch or non-ok response, the error is
rethrown (`errorData.detail || "Erreur HTTP: status"`). -/
def getTaskStatus (mockMode localProcessing windowDefined : Bool)
    (st : Storage) (taskId : String) (f : FetchOutcome TaskStatus) :
    Except String TaskStatus :=
  if mockMode && localProcessing && isLocalTaskId taskId then
    match getLocalProcessingState windowDefined st taskId with
    | some localState => .ok localState
    | none => .ok (localTaskNotFound taskId)
  else
    match f with
    | .threw msg => .error msg
    | .respOk body => .ok body
    | .respErr code _ errDetail =>
        .error (jsOrStr errDetail ("Erreur HTTP: " ++ toString code))

/-- C4.  The claim says client/remote errors are never thrown past the
operator-facing service boundary and callers always receive a structured
result.  On the code every one of the cited operations rethrows: a thrown
fetch propagates as an exception out of `startRecording` and out of
`getTaskStatus` (remote path) instead of being attached to a structured
result. -/
theorem c4_counterexample :
    (startRecording {} (FetchOutcome.threw (α := Unit) "Failed to fetch")).2
      = Except.error "Failed to fetch"
  ∧ getTaskStatus false false false [] "t1" (FetchOutcome.threw "Failed to fetch")
      = Except.error "Failed to fetch" := by
  exact ⟨rfl, rfl⟩

/-- C4 (amended).  `startRecording`, `stopRecording`, `getRecordingStatus`,
`getTaskStatus` (remote path) and `manualUpload` all rethrow client/remote
errors past the service boundary: a thrown fetch propagates unchanged, and
a non-ok response is converted into a thrown error message.  Only
`testConnection` converts failures into a structured `false`, and only the
mock-mode branch of `getTaskStatus` returns a structured `error` status
instead of throwing. -/
theorem c4_errors_rethrown (o : StartRecordingOptions)
    (mo : ManualUploadOptions) (msg : String) (code : Nat) (txt : String)
    (st : Storage) (tid : String) :
    (startRecording o (FetchOutcome.threw (α := Unit) msg)).2 = Except.error msg
  ∧ stopRecording (FetchOutcome.threw (α := Unit) msg) = Except.error msg
  ∧ getRecordingStatus (FetchOutcome.threw msg) = Except.error msg
  ∧ getTaskStatus false false false st tid (FetchOutcome.threw msg)
      = Except.error msg
  ∧ (manualUpload mo (FetchOutcome.threw (α := Unit) msg)).2 = Except.error msg
  ∧ getRecordingStatus (FetchOutcome.respErr code txt none)
      = Except.error ("HTTP " ++ toString code ++ ": " ++ txt)
  ∧ stopRecording (FetchOutcome.respErr (α := Unit) code txt none)
      = Except.error ("HTTP " ++ toString code ++ ": " ++ txt)
  ∧ testConnection (FetchOutcome.threw msg) = false
  ∧ getTaskStatus true true true [] "local_x" (FetchOutcome.threw msg)
      = Except.ok (localTaskNotFound "local_x") := by
  exact ⟨rfl, rfl, rfl, rfl, rfl, rfl, rfl, rfl, rfl⟩

/-- C10.  Mock-mode task state round-trips through storage: after
`saveProcessingState taskId s` a `getLocalProcessingState taskId` returns
`s` (up to JSON serialization, modelled value-level), the last save wins,
and `getTaskStatus` on a `local_`-prefixed task id in mock mode returns
exactly the last saved state, or a structured `error` status with message
"Tâche locale non trouvée" when nothing was ever saved under that id. -/
theorem c10_storage_roundtrip (st : Storage) (tid : String)
    (s sOld : TaskStatus) (f : FetchOutcome TaskStatus)
    (hloc : isLocalTaskId tid = true)
    (hnone : getItem st ("processing_" ++ tid) = none) :
    getLocalProcessingState true (saveProcessingState true st tid s) tid = some s
  ∧ getLocalProcessingState true
      (saveProcessingState true (saveProcessingState true st tid sOld) tid s) tid
      = some s
  ∧ getTaskStatus true true true (saveProcessingState true st tid s) tid f
      = Except.ok s
  ∧ getTaskStatus true true true st tid f = Except.ok (localTaskNotFound tid) := by
  have hget : ∀ st' : Storage,
      getLocalProcessingState true (saveProcessingState true st' tid s) tid
        = some s := by
    intro st'
    simp [getLocalProcessingState, saveProcessingState, getItem, setItem,
      jlookup, fromJson_toJson]
  refine ⟨hget st, hget _, ?_, ?_⟩
  · simp [getTaskStatus, hloc, hget st]
  · simp [getTaskStatus, hloc, getLocalProcessingState, hnone]

/-- C10 witness: the round trip and both `getTaskStatus` behaviours at a
concrete task id, state and empty storage. -/
theorem c10_witness :
    isLocalTaskId "local_a" = true
  ∧ getItem [] ("processing_" ++ "local_a") = none
  ∧ getLocalProcessingState true
      (saveProcessingState true [] "local_a" processingStatus) "local_a"
      = some processingStatus :=
  ⟨by decide, rfl,
   (c10_storage_roundtrip [] "local_a" processingStatus completedStatus
      (FetchOutcome.threw "down") (by decide) rfl).1⟩

/-- The `Socket` object held by `IntegratedRecordingService`: all the
embedding needs is that it exists and has a `connected` flag. -/
structure SocketHandle where
  connected : Bool
deriving DecidableEq, Repr

/-- The connection-related fields of `IntegratedRecordingService`
(lines 49-50): `socket: Socket | null` and `isConnected`. -/
structure ServiceSocketState where
  socket : Option SocketHandle
  isConnected : Bool
deriving DecidableEq, Repr

/-- The cleanup side effects `disconnect` can perform. -/
inductive CleanupAction where
  | emitLeaveUpdates
  | socketDisconnectCall
deriving DecidableEq, Repr

/-- Shallow embedding of `IntegratedRecordingService.disconnect`
(lines 301-308): `if (this.socket)` it emits `leave_recording_updates`,
disconnects the socket, and nulls `socket` / clears `isConnected`;
with `socket` already null it does nothing. -/
def disconnect (s : ServiceSocketState) :
    ServiceSocketState × List CleanupAction :=
  match s.socket with
  | some _ => (⟨none, false⟩, [.emitLeaveUpdates, .socketDisconnectCall])
  | none => (s, [])

/-- C7.  Unsubscribing is idempotent: a second `disconnect` right after a
first one leaves the state exactly as after the first call and performs no
cleanup action at all (so no duplicate cleanup and nothing to raise); the
first call on a state holding a socket nulls the socket and clears the
connected flag, and a call on a state with no socket is a no-op. -/
theorem c7_disconnect_idempotent (s : ServiceSocketState)
    (h : SocketHandle) (b : Bool) :
    disconnect (disconnect s).1 = ((disconnect s).1, [])
  ∧ disconnect ⟨some h, b⟩
      = (⟨none, false⟩, [CleanupAction.emitLeaveUpdates,
                          CleanupAction.socketDisconnectCall])
  ∧ disconnect ⟨none, b⟩ = (⟨none, b⟩, []) := by
  refine ⟨?_, rfl, rfl⟩
  obtain ⟨sock, c⟩ := s
  cases sock <;> rfl

/-- Which of the five user callbacks of `IntegratedRecordingService`
(lines 128-132) have been assigned (`this.onX?.(...)` fires only when
defined). -/
structure CallbackSet where
  hasStarted : Bool
  hasStopped : Bool
  hasStatusUpdate : Bool
  hasUploadCompleted : Bool
  hasError : Bool
deriving DecidableEq, Repr

/-- All five callbacks assigned, as the `IntegratedRecording` component
does during initialization. -/
def fullCallbacks : CallbackSet := ⟨true, true, true, true, true⟩

/-- Events arriving on the client socket, as listened to by
`initializeWebSocket` (lines 59-92) and `setupEventListeners`
(lines 97-123). -/
inductive WireEvent where
  | connect
  | disconnected
  | connectError (msg : String)
  | recordingStarted (d : String)
  | recordingStopped (d : String)
  | recordingStatusUpdate (st : RecordingStatus)
  | manualUploadCompleted (d : String)
  | errorEvent (d : String)
deriving DecidableEq, Repr

/-- Observable client reactions: emissions to the server, promise
settlement of `initializeWebSocket`, and invocations of the subscriber
callbacks. -/
inductive ClientAction where
  | emitJoin
  | resolveInit
  | rejectInit (msg : String)
  | cbStarted (d : String)
  | cbStopped (d : String)
  | cbStatusUpdate (st : RecordingStatus)
  | cbUploadCompleted (d : String)
  | cbError (d : String)
deriving DecidableEq, Repr

/-- Is this action a delivery of information to the subscriber (a callback
invocation)?  The synthetic current-snapshot event the spec promises would
have to appear as one of these. -/
def isCallbackDelivery : ClientAction → Bool
  | .cbStarted _ => true
  | .cbStopped _ => true
  | .cbStatusUpdate _ => true
  | .cbUploadCompleted _ => true
  | .cbError _ => true
  | _ => false

/-- Shallow embedding of the handlers registered by `initializeWebSocket`
and `setupEventListeners`: the new `isConnected` flag and the actions
performed on each wire event.  On `connect` the client sets
`isConnected = true`, emits `join_recording_updates` and resolves — nothing
is delivered to the subscriber callbacks; the five application events each
forward their payload to the matching callback when assigned. -/
def handleWireEvent (cb : CallbackSet) (isConnected : Bool) :
    WireEvent → Bool × List ClientAction
  | .connect => (true, [.emitJoin, .resolveInit])
  | .disconnected => (false, [])
  | .connectError msg => (isConnected, [.rejectInit msg])
  | .recordingStarted d =>
      (isConnected, if cb.hasStarted then [.cbStarted d] else [])
  | .recordingStopped d =>
      (isConnected, if cb.hasStopped then [.cbStopped d] else [])
  | .recordingStatusUpdate st =>
      (isConnected, if cb.hasStatusUpdate then [.cbStatusUpdate st] else [])
  | .manualUploadCompleted d =>
      (isConnected, if cb.hasUploadCompleted then [.cbUploadCompleted d] else [])
  | .errorEvent d =>
      (isConnected, if cb.hasError then [.cbError d] else [])

/-- The state the `IntegratedRecording` component keeps while
initializing (part of lines 20-27 of the component). -/
structure ComponentInitState where
  isConnected : Bool
  recordingStatus : Option RecordingStatus
  isRecording : Bool
deriving DecidableEq, Repr

/-- Shallow embedding of the tail of the component's `initializeService`
(lines 71-74): after the WebSocket is up, the component itself fetches the
current status over REST (`getRecordingStatus`) and stores it. -/
def initializeServiceSuccess (c : ComponentInitState)
    (current : RecordingStatus) : ComponentInitState :=
  { c with isConnected := true, recordingStatus := some current,
           isRecording := current.active }

/-- A concrete mid-upload recording status. -/
def uploadingStatus : RecordingStatus :=
  { active := true, sessionName := some "s1",
    message := some "upload en cours" }

/-- C8.  The claim says every new subscription immediately receives one
synthetic current-snapshot event.  On the code it does not: subscribing
(the `connect` handshake) emits `join_recording_updates` and resolves the
init promise, and delivers nothing to any subscriber callback — even with
all callbacks assigned and the server mid-upload, no snapshot of the
current status reaches the subscriber from the subscription itself. -/
theorem c8_counterexample :
    (handleWireEvent fullCallbacks false WireEvent.connect).2
      = [ClientAction.emitJoin, ClientAction.resolveInit]
  ∧ ((handleWireEvent fullCallbacks false WireEvent.connect).2.all
      fun a => !(isCallbackDelivery a)) = true := by
  decide

/-- C8 (amended).  A new subscription joins the updates room without
receiving any synthetic snapshot event: the `connect` handshake performs
exactly `emitJoin` and `resolveInit`.  The subscriber's callbacks fire only
on subsequently published events (`recording_status_update` forwards its
payload), and the current status at subscribe time reaches the UI through
the separate explicit `getRecordingStatus()` REST call the component makes
after initialization. -/
theorem c8_no_snapshot_on_subscribe (cb : CallbackSet) (b : Bool)
    (st : RecordingStatus) (c : ComponentInitState) :
    handleWireEvent cb b WireEvent.connect
      = (true, [ClientAction.emitJoin, ClientAction.resolveInit])
  ∧ (handleWireEvent fullCallbacks b (WireEvent.recordingStatusUpdate st)).2
      = [ClientAction.cbStatusUpdate st]
  ∧ (initializeServiceSuccess c st).recordingStatus = some st
  ∧ (initializeServiceSuccess c st).isRecording = st.active := by
  exact ⟨rfl, rfl, rfl, rfl⟩

/-- The hard-coded `steps` array of
`VideoProcessingAPI.startLocalProcessing` (lines 302-310). -/
def mockSteps : List (Nat × String) :=
  [(10, "Initialisation du processeur Whisper..."),
   (25, "Extraction audio..."),
   (40, "Transcription en cours..."),
   (60, "Analyse du contenu..."),
   (80, "Édition de la vidéo..."),
   (95, "Génération des sous-titres..."),
   (100, "Traitement terminé")]

/-- The initial processing state saved by `startLocalProcessing`
(lines 313-325): status `processing`, progress `0`, with the config
defaults `options.subtitle_model || "base"` and `options.priority || 1`. -/
def initialProcessingState (taskId fileName : String) (o : UploadOptions) :
    TaskStatus :=
  { task_id := taskId, status := .processing, progress := some 0,
    message := some "Démarrage du traitement...",
    filename := some fileName,
    config := some ⟨jsOrStr o.subtitle_model "base", jsOrNat o.priority 1⟩ }

/-- One iteration of the step loop in `startLocalProcessing`
(lines 328-340): overwrite `progress` and `message`; when the step reaches
100 also flip `status` to `completed` and set `result`. -/
def applyMockStep (s : TaskStatus) (step : Nat × String) : TaskStatus :=
  let s' := { s with progress := some step.1, message := some step.2 }
  if step.1 = 100 then
    { s' with status := .completed,
              result := some "Traitement terminé - Vidéo éditée disponible" }
  else s'

/-- The successive states after each loop iteration. -/
def runMockSteps (s : TaskStatus) : List (Nat × String) → List TaskStatus
  | [] => []
  | step :: rest =>
      let s' := applyMockStep s step
      s' :: runMockSteps s' rest

/-- Shallow embedding of `VideoProcessingAPI.startLocalProcessing`
(lines 300-343) as the sequence of states it passes to
`saveProcessingState`, in order: the initial state, then one state per
step of the hard-coded progression. -/
def startLocalProcessing (taskId fileName : String) (o : UploadOptions) :
    List TaskStatus :=
  let s0 := initialProcessingState taskId fileName o
  s0 :: runMockSteps s0 mockSteps

/-- Modelled from the spec: the session states of §3/§4.1.  The Session
Orchestrator itself (`integrated_api_server.py`) is not under `src/`; its
state machine is taken verbatim from the spec's diagram. -/
inductive SessionState where
  | Idle
  | Recording
  | Stopping
  | Uploading
  | Completed
  | Failed
deriving DecidableEq, Repr, Fintype

/-- Modelled from the spec: the one-step transition relation of the §4.1
state machine, including the `Uploading` retry self-loop.  `Completed` and
`Failed` have no outgoing transitions. -/
def specStepB : SessionState → SessionState → Bool
  | .Idle, .Recording => true
  | .Recording, .Stopping => true
  | .Recording, .Failed => true
  | .Stopping, .Uploading => true
  | .Stopping, .Completed => true
  | .Stopping, .Failed => true
  | .Uploading, .Completed => true
  | .Uploading, .Failed => true
  | .Uploading, .Uploading => true
  | _, _ => false

/-- Position of a session state along the forward order of the lifecycle;
the two terminal states share the final position. -/
def sessionRank : SessionState → Nat
  | .Idle => 0
  | .Recording => 1
  | .Stopping => 2
  | .Uploading => 3
  | .Completed => 4
  | .Failed => 4

/-- Rank of a mock task status in the order the statuses are visited. -/
def statusRank : TaskStatusKind → Nat
  | .uploaded => 0
  | .processing => 1
  | .completed => 2
  | .completedSimple => 2
  | .error => 3

/-- C5.  Session/task progression is monotonic.  For the mock-mode local
processing task: the saved progress values are exactly
0, 10, 25, 40, 60, 80, 95, 100 and strictly increase, and the saved status
sequence is `processing` seven times then `completed` — it never moves
backward.  For the orchestrator state machine (modelled from the spec):
every transition is forward (`sessionRank` never decreases), the only
state that can repeat is `Uploading` (the retry loop), and the terminal
states `Completed` and `Failed` have no outgoing transition. -/
theorem c5_monotonic_states_and_progress (tid fn : String) (o : UploadOptions) :
    (startLocalProcessing tid fn o).map TaskStatus.progress
      = [some 0, some 10, some 25, some 40, some 60, some 80, some 95, some 100]
  ∧ List.Chain' (· < ·)
      ((startLocalProcessing tid fn o).map fun s => s.progress.getD 0)
  ∧ (startLocalProcessing tid fn o).map TaskStatus.status
      = [TaskStatusKind.processing, .processing, .processing, .processing,
         .processing, .processing, .processing, .completed]
  ∧ List.Chain' (fun a b => statusRank a ≤ statusRank b)
      ((startLocalProcessing tid fn o).map TaskStatus.status)
  ∧ (∀ a b : SessionState, sessionRank a ≤ sessionRank b ∨ specStepB a b = false)
  ∧ (∀ a : SessionState, a = SessionState.Uploading ∨ specStepB a a = false)
  ∧ (∀ b : SessionState,
       specStepB SessionState.Completed b = false
     ∧ specStepB SessionState.Failed b = false) := by
  have h1 : (startLocalProcessing tid fn o).map (fun s => s.progress.getD 0)
      = [0, 10, 25, 40, 60, 80, 95, 100] := rfl
  have h2 : (startLocalProcessing tid fn o).map TaskStatus.status
      = [TaskStatusKind.processing, .processing, .processing, .processing,
         .processing, .processing, .processing, .completed] := rfl
  refine ⟨rfl, ?_, h2, ?_, ?_, ?_, ?_⟩
  · rw [h1]; simp [List.chain'_cons]
  · rw [h2]; simp [List.chain'_cons, statusRank]
  · decide
  · decide
  · decide

end StreamAI
